import Mathlib

/-!
# Verification of the trading-bot lambda pipeline

Shallow embedding of `src/lambda_function.py`: an AWS-Lambda trading bot that
fetches minute bars for a set of symbols, computes RSI(14) and EMA(9) over the
closing prices, applies a threshold decision rule, submits market orders to a
brokerage, and publishes metrics.

Modelling conventions:
- Python floats are embedded as exact rationals (`ℚ`); all comparisons in the
  decision rule are order comparisons that agree with the float code on the
  inputs considered.
- Every call to an external service (market-data provider, brokerage account /
  position / order endpoints, CloudWatch metric sink) is mediated by an
  environment `Env` of response functions; each call may succeed or raise
  (`Except String`).  A computation's value is paired with the ordered trace
  of external calls it performed (`Res α`), so that claims about which calls
  happen (orders submitted, equity reads) can be stated.
- Python `raise`/`try`/`except Exception` is embedded as `Except.error` with
  `rCatch`; a raised exception aborts the rest of a computation but the side
  effects already performed stay in the trace.
- `talib.RSI` / `talib.EMA` are third-party library calls (not part of this
  repository); they are modelled from the spec's normative description
  (§4.2/§9): Wilder smoothing seeded by the simple average of the first 14
  gains/losses for RSI, and an SMA-seeded EMA with factor 2/(period+1).
-/

namespace TradingBot

set_option maxRecDepth 200000

set_option allowUnsafeReducibility true

attribute [semireducible] Rat.mul Rat.add Rat.sub Rat.inv

/-- Decidable equality of `Except` values (componentwise). -/
def exceptDecEq {e a : Type} [DecidableEq e] [DecidableEq a] : DecidableEq (Except e a)
  | Except.error x, Except.error y =>
    if h : x = y then Decidable.isTrue (by rw [h]) else Decidable.isFalse (by simp [h])
  | Except.error _, Except.ok _ => Decidable.isFalse (by simp)
  | Except.ok _, Except.error _ => Decidable.isFalse (by simp)
  | Except.ok x, Except.ok y =>
    if h : x = y then Decidable.isTrue (by rw [h]) else Decidable.isFalse (by simp [h])

instance {e a : Type} [DecidableEq e] [DecidableEq a] : DecidableEq (Except e a) :=
  exceptDecEq

/-- Python `str.upper()`: uppercase every character. -/
def pyUpper (s : String) : String := String.mk (s.data.map Char.toUpper)

/-- Python `str.strip()`: drop whitespace from both ends. -/
def pyStrip (s : String) : String :=
  String.mk (((s.data.dropWhile Char.isWhitespace).reverse.dropWhile Char.isWhitespace).reverse)

/-- Side of a market order (`OrderSide` in the source). -/
inductive OrderSide where
  | buy
  | sell
deriving DecidableEq

/-- Sizing of a market order: the BUY path submits a notional (dollar) amount,
the SELL path submits an exact quantity. -/
inductive Sizing where
  | notional (amount : ℚ)
  | qty (q : ℚ)
deriving DecidableEq

/-- `MarketOrderRequest` from the source; `time_in_force` is always
`TimeInForce.DAY` at both construction sites, recorded as a string field. -/
structure MarketOrderRequest where
  symbol : String
  side : OrderSide
  sizing : Sizing
  timeInForce : String
deriving DecidableEq

/-- The fields of an alpaca position object read by the SELL path
(lines 144-145: `unrealized_pl`, `qty`). -/
structure PositionInfo where
  qty : ℚ
  unrealized_pl : ℚ
deriving DecidableEq

/-- One external call performed by the pipeline, recorded in order. -/
inductive Event where
  | getBars (symbol : String) (minutes : ℕ)
  | getAccount
  | getPosition (symbol : String)
  | submitOrder (req : MarketOrderRequest)
  | putMetric (name : String) (value : ℚ) (dims : List (String × String))
deriving DecidableEq

/-- Responses of the external services.  `getBars` returns the time-sorted
closing prices for the requested symbol (an empty list models "symbol not in
the response index", line 60-61); any call may instead raise. -/
structure Env where
  getBars : String → ℕ → Except String (List ℚ)
  getAccount : Except String ℚ
  getPosition : String → Except String PositionInfo
  submitOrder : MarketOrderRequest → Except String String
  putMetricData : String → ℚ → List (String × String) → Except String Unit

/-- The environment-derived configuration (lines 24-26): `SYMBOLS`,
`RISK_PCT`, `MINUTES_HISTORY`. -/
structure Config where
  symbols : List String
  riskPct : ℚ
  minutesHistory : ℕ

/-- Result of a (possibly raising) computation together with the ordered trace
of external calls it performed. -/
def Res (α : Type) : Type := Except String α × List Event

/-- Return a value, performing no external call. -/
def rPure {α : Type} (a : α) : Res α := (Except.ok a, [])

/-- Sequencing: a raised exception skips the continuation; traces append. -/
def rBind {α β : Type} (x : Res α) (f : α → Res β) : Res β :=
  match x with
  | (Except.error e, tr) => (Except.error e, tr)
  | (Except.ok a, tr) => ((f a).1, tr ++ (f a).2)

/-- Python `try`/`except Exception`: on a raised exception run the fallback;
the side effects performed before the exception stay in the trace. -/
def rCatch {α : Type} (x : Res α) (fb : String → Res α) : Res α :=
  match x with
  | (Except.ok a, tr) => (Except.ok a, tr)
  | (Except.error e, tr) => ((fb e).1, tr ++ (fb e).2)

/-- `data_client.get_stock_bars` (line 57) plus the indexing/sorting of
lines 58-64, abstracted to the per-symbol sorted close series. -/
def callGetBars (env : Env) (symbol : String) (minutes : ℕ) : Res (List ℚ) :=
  (env.getBars symbol minutes, [Event.getBars symbol minutes])

/-- `trading_client.get_account()` (line 75). -/
def callGetAccount (env : Env) : Res ℚ :=
  (env.getAccount, [Event.getAccount])

/-- `trading_client.get_position(symbol)` (line 143); raises when no open
position exists for the symbol. -/
def callGetPosition (env : Env) (symbol : String) : Res PositionInfo :=
  (env.getPosition symbol, [Event.getPosition symbol])

/-- `trading_client.submit_order(order_data=req)` (lines 89, 156); returns the
broker-assigned order id. -/
def callSubmitOrder (env : Env) (req : MarketOrderRequest) : Res String :=
  (env.submitOrder req, [Event.submitOrder req])

/-! ## Indicators (`compute_indicators`, lines 35-44)

`talib.RSI(close, timeperiod=14)` and `talib.EMA(close, timeperiod=9)` are
modelled from the spec (§4.2, declared normative in §9): the library computes
Wilder's RSI — average gain/loss seeded at index 14 by the simple average of
the first 14 gains/losses, then smoothed by `(prev*13 + x)/14`, with
`rsi = 100*avg_gain/(avg_gain+avg_loss)` (0 when both averages are 0) — and an
EMA seeded at index 8 by the simple average of the first 9 closes, then
`ema = (close - prev)*k + prev` with `k = 2/(9+1)`.  Positions with
insufficient history are undefined (`none`, talib's NaN prefix). -/

/-- Successive differences of the close series: `diffs l` at index `i` is
`l[i+1] - l[i]`. -/
def diffs : List ℚ → List ℚ
  | a :: b :: rest => (b - a) :: diffs (b :: rest)
  | _ => []

/-- Per-step gains: positive part of each difference. -/
def gains (closes : List ℚ) : List ℚ := (diffs closes).map (fun d => max d 0)

/-- Per-step losses: positive part of each negated difference. -/
def losses (closes : List ℚ) : List ℚ := (diffs closes).map (fun d => max (-d) 0)

/-- Wilder-smoothed average gain at close index `t`; `none` before index 14
(fewer than 15 closes seen) or past the end of the series. -/
def avgGainAt (closes : List ℚ) : ℕ → Option ℚ
  | 14 =>
      if 14 < closes.length then some (((gains closes).take 14).sum / 14) else none
  | t + 15 =>
      if t + 15 < closes.length then
        match avgGainAt closes (t + 14) with
        | some prev => some ((prev * 13 + (gains closes).getD (t + 14) 0) / 14)
        | none => none
      else none
  | _ => none

/-- Wilder-smoothed average loss at close index `t`; same shape as
`avgGainAt`. -/
def avgLossAt (closes : List ℚ) : ℕ → Option ℚ
  | 14 =>
      if 14 < closes.length then some (((losses closes).take 14).sum / 14) else none
  | t + 15 =>
      if t + 15 < closes.length then
        match avgLossAt closes (t + 14) with
        | some prev => some ((prev * 13 + (losses closes).getD (t + 14) 0) / 14)
        | none => none
      else none
  | _ => none

/-- `talib.RSI(close, 14)` at close index `t`: `100*g/(g+l)`, and `0` when
`g + l = 0` (the library's zero-total guard). -/
def rsi14At (closes : List ℚ) (t : ℕ) : Option ℚ :=
  match avgGainAt closes t, avgLossAt closes t with
  | some g, some l => some (if g + l = 0 then 0 else 100 * g / (g + l))
  | _, _ => none

/-- The EMA smoothing factor `k = 2/(timeperiod+1)` for period 9. -/
def emaK : ℚ := 2 / (9 + 1)

/-- `talib.EMA(close, 9)` at close index `t`: seeded at index 8 by the simple
average of the first 9 closes, then `ema = (close - prev)*k + prev`. -/
def ema9At (closes : List ℚ) : ℕ → Option ℚ
  | 8 =>
      if 8 < closes.length then some ((closes.take 9).sum / 9) else none
  | t + 9 =>
      if t + 9 < closes.length then
        match ema9At closes (t + 8) with
        | some prev => some ((closes.getD (t + 9) 0 - prev) * emaK + prev)
        | none => none
      else none
  | _ => none

/-- One row of the DataFrame built by `compute_indicators`:
columns `close`, `rsi14`, `ema9` (undefined entries are `none`). -/
structure IndicatorRow where
  close : ℚ
  rsi14 : Option ℚ
  ema9 : Option ℚ
deriving DecidableEq

/-- `compute_indicators` (lines 35-44): per-position close, RSI(14), EMA(9). -/
def compute_indicators (closes : List ℚ) : List IndicatorRow :=
  (List.range closes.length).map fun t =>
    { close := closes.getD t 0, rsi14 := rsi14At closes t, ema9 := ema9At closes t }

/-- A fully defined indicator row (both indicators present). -/
structure DefinedRow where
  close : ℚ
  rsi14 : ℚ
  ema9 : ℚ
deriving DecidableEq

/-- `.dropna()` (line 102): keep only rows where both indicator columns are
defined. -/
def dropna (rows : List IndicatorRow) : List DefinedRow :=
  rows.filterMap fun r =>
    match r.rsi14, r.ema9 with
    | some g, some e => some { close := r.close, rsi14 := g, ema9 := e }
    | _, _ => none

/-! ## Spec-side indicator definitions (for the refinement claim)

These follow the spec's words (§4.2), to be compared with the talib-convention
definitions above. -/

/-- Modelled from the spec: the smoothing factor `α = 2/(period+1) = 0.2` of
the trend average (§4.2). -/
def specAlpha : ℚ := 2 / (9 + 1)

/-- Modelled from the spec: the trend average (§4.2) — "exponential moving
average with smoothing factor α, seeded by the simple average of the first 9
closes, then recurrence `ema[t] = close[t]*α + ema[t-1]*(1-α)`". -/
def specTrendAvgAt (closes : List ℚ) : ℕ → Option ℚ
  | 8 =>
      if 8 < closes.length then some ((closes.take 9).sum / 9) else none
  | t + 9 =>
      if t + 9 < closes.length then
        match specTrendAvgAt closes (t + 8) with
        | some prev => some (closes.getD (t + 9) 0 * specAlpha + prev * (1 - specAlpha))
        | none => none
      else none
  | _ => none

/-- Modelled from the spec: the momentum index (§4.2) — "the index is
`100 - 100/(1 + avg_gain/avg_loss)`, and is `100` when avg_loss is exactly 0
with nonzero avg_gain", over the same Wilder-smoothed averages. -/
def specMomentumAt (closes : List ℚ) (t : ℕ) : Option ℚ :=
  match avgGainAt closes t, avgLossAt closes t with
  | some g, some l =>
      some (if l = 0 ∧ g ≠ 0 then 100 else 100 - 100 / (1 + g / l))
  | _, _ => none

/-! ## Pipeline (`fetch_minute_bars`, `publish_metric`, `evaluate_and_trade`,
`lambda_handler`) -/

/-- `fetch_minute_bars` (lines 48-67): request the bars (the 2× lookback and
timestamp handling live inside the data client model), then truncate to the
most recent `minutes` entries (lines 65-66). -/
def fetch_minute_bars (env : Env) (symbol : String) (minutes : ℕ) : Res (List ℚ) :=
  rBind (callGetBars env symbol minutes) fun closes =>
  rPure (if minutes < closes.length then closes.drop (closes.length - minutes) else closes)

/-- `get_portfolio_equity` (lines 71-76): read the account and return its
equity. -/
def get_portfolio_equity (env : Env) : Res ℚ :=
  callGetAccount env

/-- `submit_market_notional_order` (lines 78-89): a notional-sized market
order with `TimeInForce.DAY`. -/
def submit_market_notional_order (env : Env) (symbol : String) (side : OrderSide)
    (notional : ℚ) : Res String :=
  callSubmitOrder env
    { symbol := symbol, side := side, sizing := Sizing.notional notional,
      timeInForce := "day" }

/-- `publish_metric` (lines 181-197): build the dimension list (`if symbol:`,
nonempty-string truthiness) and call `cw.put_metric_data`.  No error handling:
a failure of the sink raises out of this function. -/
def publish_metric (env : Env) (name : String) (value : ℚ) (symbol : String) : Res Unit :=
  let dims := if symbol = "" then [] else [("Symbol", symbol)]
  (env.putMetricData name value dims, [Event.putMetric name value dims])

/-- Per-symbol outcome records of `evaluate_and_trade` / `lambda_handler`
(the Python dicts, keyed by their `"action"` value). -/
inductive TradeResult where
  | no_data (symbol : String)
  | insufficient_data (symbol : String)
  | buy (symbol : String) (order_id : String) (notional : ℚ)
  | sell (symbol : String) (order_id : String) (qty : ℚ)
  | nothing_to_sell (symbol : String)
  | no_signal (symbol : String) (rsi close ema9 : ℚ)
  | error (symbol : String) (err : String)
deriving DecidableEq

/-- The `"action"` field of a result record. -/
def TradeResult.actionOf : TradeResult → String
  | .no_data _ => "no_data"
  | .insufficient_data _ => "insufficient_data"
  | .buy _ _ _ => "buy"
  | .sell _ _ _ => "sell"
  | .nothing_to_sell _ => "nothing_to_sell"
  | .no_signal _ _ _ _ => "no_signal"
  | .error _ _ => "error"

/-- The `"symbol"` field of a result record. -/
def TradeResult.symbolOf : TradeResult → String
  | .no_data s => s
  | .insufficient_data s => s
  | .buy s _ _ => s
  | .sell s _ _ => s
  | .nothing_to_sell s => s
  | .no_signal s _ _ _ => s
  | .error s _ => s

/-- Lines 106-176 of `evaluate_and_trade`: the decision and execution taken on
the last fully-defined indicator row (`last = indicators.iloc[-1]`).  Factored
out of `evaluate_and_trade` so that it can be stated for an arbitrary row. -/
def decide_and_trade (env : Env) (cfg : Config) (symbol : String)
    (last : DefinedRow) : Res TradeResult :=
  rBind (publish_metric env "RSI" last.rsi14 symbol) fun _ =>
  rBind (publish_metric env "EMA9" last.ema9 symbol) fun _ =>
  rBind (publish_metric env "Price" last.close symbol) fun _ =>
  if last.rsi14 < 30 ∧ last.close < last.ema9 then
    rBind (get_portfolio_equity env) fun equity =>
    let notional := equity * cfg.riskPct
    rBind (submit_market_notional_order env symbol OrderSide.buy notional) fun order_id =>
    rBind (publish_metric env "Equity" equity "Portfolio") fun _ =>
    rBind (publish_metric env "TradeNotional" notional symbol) fun _ =>
    rBind (publish_metric env "BuySignal" 1 symbol) fun _ =>
    rPure (TradeResult.buy symbol order_id notional)
  else if 70 < last.rsi14 ∧ last.ema9 < last.close then
    rCatch
      (rBind (callGetPosition env symbol) fun pos =>
       rBind (publish_metric env "TradeQuantity" pos.qty symbol) fun _ =>
       rBind (publish_metric env "PnL" pos.unrealized_pl symbol) fun _ =>
       rBind (callSubmitOrder env
         { symbol := symbol, side := OrderSide.sell, sizing := Sizing.qty pos.qty,
           timeInForce := "day" }) fun order_id =>
       rBind (publish_metric env "SellSignal" 1 symbol) fun _ =>
       rPure (TradeResult.sell symbol order_id pos.qty))
      (fun _ => rPure (TradeResult.nothing_to_sell symbol))
  else
    rPure (TradeResult.no_signal symbol last.rsi14 last.close last.ema9)

/-- `evaluate_and_trade` (lines 93-176): fetch, guard empty data, compute and
drop undefined indicator rows, guard empty indicators, then decide on the
last row. -/
def evaluate_and_trade (env : Env) (cfg : Config) (symbol : String) : Res TradeResult :=
  rBind (fetch_minute_bars env symbol cfg.minutesHistory) fun closes =>
  if closes.isEmpty then rPure (TradeResult.no_data symbol)
  else
    match (dropna (compute_indicators closes)).getLast? with
    | none => rPure (TradeResult.insufficient_data symbol)
    | some last => decide_and_trade env cfg symbol last

/-- The per-symbol loop of `lambda_handler` (lines 206-214): normalize the
symbol (`sym.strip().upper()`), run the pipeline under a per-symbol `try`,
and on an exception record
`{symbol: sym, action: "error", error: str(e)}` with the ORIGINAL `sym`. -/
def processSymbols (env : Env) (cfg : Config) : List String → Res (List TradeResult)
  | [] => rPure []
  | sym :: rest =>
    rBind (rCatch (evaluate_and_trade env cfg (pyUpper (pyStrip sym)))
                  (fun e => rPure (TradeResult.error sym e))) fun r =>
    rBind (processSymbols env cfg rest) fun rs =>
    rPure (r :: rs)

/-- The `{statusCode, body}` value returned by `lambda_handler`. -/
structure LambdaResponse where
  statusCode : ℕ
  body : List TradeResult
deriving DecidableEq

/-- `lambda_handler` (lines 202-216): read equity, publish the portfolio
equity metric (both UNPROTECTED — a failure here raises out of the whole
invocation), then the per-symbol loop, then the 200 response. -/
def lambda_handler (env : Env) (cfg : Config) : Res LambdaResponse :=
  rBind (get_portfolio_equity env) fun equity =>
  rBind (publish_metric env "Equity" equity "Portfolio") fun _ =>
  rBind (processSymbols env cfg cfg.symbols) fun results =>
  rPure { statusCode := 200, body := results }

/-- The record that ends in a symbol's slot of the response body: the
pipeline's result, or the error record built from the ORIGINAL symbol string
when the pipeline raised. -/
def slotResult (env : Env) (cfg : Config) (s : String) : TradeResult :=
  match (evaluate_and_trade env cfg (pyUpper (pyStrip s))).1 with
  | Except.ok r => r
  | Except.error e => TradeResult.error s e

/-! ## Concrete fixtures used by witnesses and counterexamples -/

/-- The spec's end-to-end series (§8): 17 flat closes, then three drops.
At the last index RSI is 0 (< 30) and EMA(9) is 1128/125 = 9.024 (> 8). -/
def buySeries : List ℚ := List.replicate 17 10 ++ [8, 8, 8]

/-- A latest indicator row in the BUY quadrant. -/
def lastBuyRow : DefinedRow := { close := 8, rsi14 := 20, ema9 := 9 }

/-- A latest indicator row in the SELL quadrant. -/
def lastSellRow : DefinedRow := { close := 110, rsi14 := 80, ema9 := 100 }

/-- All external calls succeed; the BUY series is served for every symbol;
there is no open position (`get_position` raises). -/
def envGood : Env :=
  { getBars := fun _ _ => Except.ok buySeries
    getAccount := Except.ok 100000
    getPosition := fun _ => Except.error "position does not exist"
    submitOrder := fun _ => Except.ok "oid-1"
    putMetricData := fun _ _ _ => Except.ok () }

/-- Like `envGood` but an open position of 5 shares exists. -/
def envAllOk : Env :=
  { envGood with getPosition := fun _ => Except.ok { qty := 5, unrealized_pl := 2 } }

/-- Like `envGood` but the metric sink rejects the RSI metric. -/
def envRsiSinkDown : Env :=
  { envGood with
    putMetricData := fun n _ _ =>
      if n = "RSI" then Except.error "metric sink down" else Except.ok () }

/-- An open position exists but the venue rejects every submitted order. -/
def envSellReject : Env :=
  { envGood with
    getPosition := fun _ => Except.ok { qty := 5, unrealized_pl := 2 }
    submitOrder := fun _ => Except.error "market closed" }

/-- The brokerage account endpoint is down. -/
def envAccountDown : Env :=
  { envGood with getAccount := Except.error "account service down" }

/-- The market-data provider is down for every symbol. -/
def envFeedDown : Env :=
  { envGood with getBars := fun _ _ => Except.error "feed down" }

/-- The market-data provider returns no data for any symbol. -/
def envEmptyBars : Env :=
  { envGood with getBars := fun _ _ => Except.ok [] }

/-- The market-data provider fails for symbol "B" only and returns no data for
the others. -/
def envBDown : Env :=
  { envGood with
    getBars := fun s _ =>
      if s = "B" then Except.error "feed down" else Except.ok [] }

/-- The market-data provider returns only three closes for every symbol. -/
def envShortBars : Env :=
  { envGood with getBars := fun _ _ => Except.ok [10, 11, 12] }

/-- One configured symbol, 2% risk, 60-minute window. -/
def cfgOne : Config := { symbols := ["AAPL"], riskPct := 1 / 50, minutesHistory := 60 }

/-- Three configured symbols. -/
def cfg3 : Config := { symbols := ["A", "B", "C"], riskPct := 1 / 50, minutesHistory := 60 }

/-! ## Helper lemmas about the effect combinators -/

@[simp] theorem rPure_def {a : Type} (x : a) : rPure x = (Except.ok x, ([] : List Event)) := rfl

@[simp] theorem rBind_mk_ok {a b : Type} (x : a) (tr : List Event) (f : a → Res b) :
    rBind (Except.ok x, tr) f = ((f x).1, tr ++ (f x).2) := rfl

@[simp] theorem rBind_mk_error {a b : Type} (e : String) (tr : List Event) (f : a → Res b) :
    rBind (Except.error e, tr) f = (Except.error e, tr) := rfl

@[simp] theorem rCatch_mk_ok {a : Type} (x : a) (tr : List Event) (fb : String → Res a) :
    rCatch (Except.ok x, tr) fb = (Except.ok x, tr) := rfl

@[simp] theorem rCatch_mk_error {a : Type} (e : String) (tr : List Event) (fb : String → Res a) :
    rCatch (Except.error e, tr) fb = ((fb e).1, tr ++ (fb e).2) := rfl

theorem rBind_ok_of {a b : Type} {x : Res a} {v : a} (f : a → Res b)
    (h : x.1 = Except.ok v) : rBind x f = ((f v).1, x.2 ++ (f v).2) := by
  rcases x with ⟨w, tr⟩
  cases w <;> simp_all [rBind]

theorem rBind_error_of {a b : Type} {x : Res a} {e : String} (f : a → Res b)
    (h : x.1 = Except.error e) : rBind x f = (Except.error e, x.2) := by
  rcases x with ⟨w, tr⟩
  cases w <;> simp_all [rBind]

theorem rCatch_ok_of {a : Type} {x : Res a} {v : a} (fb : String → Res a)
    (h : x.1 = Except.ok v) : rCatch x fb = (Except.ok v, x.2) := by
  rcases x with ⟨w, tr⟩
  cases w <;> simp_all [rCatch]

theorem rCatch_error_of {a : Type} {x : Res a} {e : String} (fb : String → Res a)
    (h : x.1 = Except.error e) : rCatch x fb = ((fb e).1, x.2 ++ (fb e).2) := by
  rcases x with ⟨w, tr⟩
  cases w <;> simp_all [rCatch]

theorem rBind_fst_ok {a b : Type} {x : Res a} {f : a → Res b} {v : b}
    (h : (rBind x f).1 = Except.ok v) :
    ∃ w, x.1 = Except.ok w ∧ (f w).1 = Except.ok v := by
  rcases x with ⟨w, tr⟩
  cases w with
  | error e => simp [rBind] at h
  | ok w => exact ⟨w, rfl, by simpa [rBind] using h⟩

theorem rCatch_fst_ok {a : Type} {x : Res a} {fb : String → Res a} {v : a}
    (h : (rCatch x fb).1 = Except.ok v) :
    x.1 = Except.ok v ∨ ∃ e, x.1 = Except.error e ∧ (fb e).1 = Except.ok v := by
  rcases x with ⟨w, tr⟩
  cases w with
  | error e => exact Or.inr ⟨e, rfl, by simpa [rCatch] using h⟩
  | ok w => exact Or.inl (by simpa [rCatch] using h)

/-! ## Indicator lemmas -/

theorem gains_nonneg (closes : List ℚ) : ∀ x ∈ gains closes, 0 ≤ x := by
  intro x hx
  simp only [gains, List.mem_map] at hx
  obtain ⟨d, -, rfl⟩ := hx
  exact le_max_right d 0

theorem losses_nonneg (closes : List ℚ) : ∀ x ∈ losses closes, 0 ≤ x := by
  intro x hx
  simp only [losses, List.mem_map] at hx
  obtain ⟨d, -, rfl⟩ := hx
  exact le_max_right (-d) 0

theorem getD_nonneg {l : List ℚ} (hl : ∀ x ∈ l, 0 ≤ x) (i : ℕ) : 0 ≤ l.getD i 0 := by
  rcases hg : l.get? i with - | x
  · rw [List.get?_eq_getElem?] at hg
    simp [List.getD, hg]
  · have := hl x (List.get?_mem hg)
    rw [List.get?_eq_getElem?] at hg
    simp [List.getD, hg, this]

theorem sum_take_nonneg {l : List ℚ} (hl : ∀ x ∈ l, 0 ≤ x) (n : ℕ) :
    0 ≤ (l.take n).sum :=
  List.sum_nonneg fun x hx => hl x (List.take_subset n l hx)

theorem avgGainAt_nonneg (closes : List ℚ) : ∀ t g, avgGainAt closes t = some g → 0 ≤ g
  | 14, g => by
    intro h
    simp only [avgGainAt] at h
    split at h
    · obtain rfl := Option.some_injective _ h.symm
      have := sum_take_nonneg (gains_nonneg closes) 14
      positivity
    · exact absurd h (by simp)
  | t + 15, g => by
    intro h
    simp only [avgGainAt] at h
    split at h
    · rcases hp : avgGainAt closes (t + 14) with - | prev
      · rw [hp] at h; exact absurd h (by simp)
      · rw [hp] at h
        obtain rfl := Option.some_injective _ h.symm
        have h1 := avgGainAt_nonneg closes (t + 14) prev hp
        have h2 := getD_nonneg (gains_nonneg closes) (t + 14)
        positivity
    · exact absurd h (by simp)
  | 0, g => fun h => nomatch h
  | 1, g => fun h => nomatch h
  | 2, g => fun h => nomatch h
  | 3, g => fun h => nomatch h
  | 4, g => fun h => nomatch h
  | 5, g => fun h => nomatch h
  | 6, g => fun h => nomatch h
  | 7, g => fun h => nomatch h
  | 8, g => fun h => nomatch h
  | 9, g => fun h => nomatch h
  | 10, g => fun h => nomatch h
  | 11, g => fun h => nomatch h
  | 12, g => fun h => nomatch h
  | 13, g => fun h => nomatch h

theorem avgLossAt_nonneg (closes : List ℚ) : ∀ t l, avgLossAt closes t = some l → 0 ≤ l
  | 14, l => by
    intro h
    simp only [avgLossAt] at h
    split at h
    · obtain rfl := Option.some_injective _ h.symm
      have := sum_take_nonneg (losses_nonneg closes) 14
      positivity
    · exact absurd h (by simp)
  | t + 15, l => by
    intro h
    simp only [avgLossAt] at h
    split at h
    · rcases hp : avgLossAt closes (t + 14) with - | prev
      · rw [hp] at h; exact absurd h (by simp)
      · rw [hp] at h
        obtain rfl := Option.some_injective _ h.symm
        have h1 := avgLossAt_nonneg closes (t + 14) prev hp
        have h2 := getD_nonneg (losses_nonneg closes) (t + 14)
        positivity
    · exact absurd h (by simp)
  | 0, l => fun h => nomatch h
  | 1, l => fun h => nomatch h
  | 2, l => fun h => nomatch h
  | 3, l => fun h => nomatch h
  | 4, l => fun h => nomatch h
  | 5, l => fun h => nomatch h
  | 6, l => fun h => nomatch h
  | 7, l => fun h => nomatch h
  | 8, l => fun h => nomatch h
  | 9, l => fun h => nomatch h
  | 10, l => fun h => nomatch h
  | 11, l => fun h => nomatch h
  | 12, l => fun h => nomatch h
  | 13, l => fun h => nomatch h

theorem avgGainAt_of_short (closes : List ℚ) (hlen : closes.length ≤ 14) :
    ∀ t, avgGainAt closes t = none
  | 14 => by simp only [avgGainAt]; rw [if_neg (by omega)]
  | t + 15 => by simp only [avgGainAt]; rw [if_neg (by omega)]
  | 0 => rfl
  | 1 => rfl
  | 2 => rfl
  | 3 => rfl
  | 4 => rfl
  | 5 => rfl
  | 6 => rfl
  | 7 => rfl
  | 8 => rfl
  | 9 => rfl
  | 10 => rfl
  | 11 => rfl
  | 12 => rfl
  | 13 => rfl

theorem rsi14At_of_short (closes : List ℚ) (hlen : closes.length ≤ 14) (t : ℕ) :
    rsi14At closes t = none := by
  simp [rsi14At, avgGainAt_of_short closes hlen t]

theorem dropna_of_short (closes : List ℚ) (hlen : closes.length ≤ 14) :
    dropna (compute_indicators closes) = [] := by
  rw [dropna, List.filterMap_eq_nil_iff]
  intro r hr
  simp only [compute_indicators, List.mem_map, List.mem_range] at hr
  obtain ⟨t, -, rfl⟩ := hr
  simp [rsi14At_of_short closes hlen t]

theorem ema9At_eq_specTrendAvgAt (closes : List ℚ) :
    ∀ t, ema9At closes t = specTrendAvgAt closes t
  | 8 => by simp [ema9At, specTrendAvgAt]
  | t + 9 => by
    have ih := ema9At_eq_specTrendAvgAt closes (t + 8)
    simp only [ema9At, specTrendAvgAt, ih]
    rcases specTrendAvgAt closes (t + 8) with - | prev
    · rfl
    · split_ifs with hc
      · have h9 : (closes.getD (t + 9) 0 - prev) * emaK + prev =
            closes.getD (t + 9) 0 * specAlpha + prev * (1 - specAlpha) := by
          simp only [emaK, specAlpha]
          ring
        dsimp only
        rw [h9]
      · rfl
  | 0 => rfl
  | 1 => rfl
  | 2 => rfl
  | 3 => rfl
  | 4 => rfl
  | 5 => rfl
  | 6 => rfl
  | 7 => rfl

theorem rsi14At_eq_specMomentumAt (closes : List ℚ) (t : ℕ) :
    rsi14At closes t = specMomentumAt closes t := by
  unfold rsi14At specMomentumAt
  rcases hg : avgGainAt closes t with - | g
  · rfl
  · rcases hl : avgLossAt closes t with - | l
    · rfl
    · have hg0 : 0 ≤ g := avgGainAt_nonneg closes t g hg
      have hl0 : 0 ≤ l := avgLossAt_nonneg closes t l hl
      dsimp only
      congr 1
      by_cases hlz : l = 0
      · subst hlz
        by_cases hgz : g = 0
        · subst hgz
          norm_num
        · rw [if_neg (by simpa using hgz), if_pos ⟨rfl, hgz⟩]
          rw [add_zero, mul_div_assoc, div_self hgz, mul_one]
      · have hl1 : 0 < l := lt_of_le_of_ne hl0 (Ne.symm hlz)
        have hgl : g + l ≠ 0 := by positivity
        rw [if_neg hgl, if_neg (by tauto)]
        have h1 : 1 + g / l ≠ 0 := by positivity
        field_simp
        ring

/-! ## Pipeline lemmas -/

theorem decide_and_trade_symbolOf (env : Env) (cfg : Config) (symbol : String)
    (last : DefinedRow) (r : TradeResult)
    (h : (decide_and_trade env cfg symbol last).1 = Except.ok r) :
    r.symbolOf = symbol := by
  unfold decide_and_trade at h
  obtain ⟨-, -, h⟩ := rBind_fst_ok h
  obtain ⟨-, -, h⟩ := rBind_fst_ok h
  obtain ⟨-, -, h⟩ := rBind_fst_ok h
  split_ifs at h
  · obtain ⟨equity, -, h⟩ := rBind_fst_ok h
    obtain ⟨oid, -, h⟩ := rBind_fst_ok h
    obtain ⟨-, -, h⟩ := rBind_fst_ok h
    obtain ⟨-, -, h⟩ := rBind_fst_ok h
    obtain ⟨-, -, h⟩ := rBind_fst_ok h
    obtain rfl : TradeResult.buy symbol oid (equity * cfg.riskPct) = r := by
      simpa [rPure] using h
    rfl
  · rcases rCatch_fst_ok h with h | ⟨-, -, h⟩
    · obtain ⟨pos, -, h⟩ := rBind_fst_ok h
      obtain ⟨-, -, h⟩ := rBind_fst_ok h
      obtain ⟨-, -, h⟩ := rBind_fst_ok h
      obtain ⟨oid, -, h⟩ := rBind_fst_ok h
      obtain ⟨-, -, h⟩ := rBind_fst_ok h
      obtain rfl : TradeResult.sell symbol oid pos.qty = r := by simpa [rPure] using h
      rfl
    · obtain rfl : TradeResult.nothing_to_sell symbol = r := by simpa [rPure] using h
      rfl
  · obtain rfl : TradeResult.no_signal symbol last.rsi14 last.close last.ema9 = r := by
      simpa [rPure] using h
    rfl

theorem evaluate_and_trade_symbolOf (env : Env) (cfg : Config) (symbol : String)
    (r : TradeResult)
    (h : (evaluate_and_trade env cfg symbol).1 = Except.ok r) :
    r.symbolOf = symbol := by
  unfold evaluate_and_trade at h
  obtain ⟨closes, -, h⟩ := rBind_fst_ok h
  split_ifs at h
  · obtain rfl : TradeResult.no_data symbol = r := by simpa [rPure] using h
    rfl
  · rcases hL : (dropna (compute_indicators closes)).getLast? with - | last
    · rw [hL] at h
      obtain rfl : TradeResult.insufficient_data symbol = r := by simpa [rPure] using h
      rfl
    · rw [hL] at h
      exact decide_and_trade_symbolOf env cfg symbol last r h

theorem processSymbols_fst (env : Env) (cfg : Config) :
    ∀ syms : List String,
      (processSymbols env cfg syms).1 = Except.ok (syms.map (slotResult env cfg))
  | [] => rfl
  | sym :: rest => by
    have ih := processSymbols_fst env cfg rest
    unfold processSymbols
    rcases he : (evaluate_and_trade env cfg (pyUpper (pyStrip sym))).1 with e | r
    · rw [rCatch_error_of _ he]
      simp only [rPure, rBind_mk_ok]
      rw [rBind_ok_of _ ih]
      simp [slotResult, he, rPure]
    · rw [rCatch_ok_of _ he]
      simp only [rBind_mk_ok]
      rw [rBind_ok_of _ ih]
      simp [slotResult, he, rPure]

/-! ## Claims -/

/-- C2: the claim says a venue-side rejection of the submitted sell order is
reported as an execution error.  In the code the whole SELL block, including
`submit_order`, sits inside `try: ... except Exception: return nothing_to_sell`
(lines 142-167), so the rejection is swallowed: with an open position of 5
shares, a SELL-quadrant row, and a venue that rejects the order with
"market closed", the order IS submitted and rejected, yet the outcome is the
non-error record `nothing_to_sell`. -/
theorem C2_sell_rejection_swallowed :
    envSellReject.submitOrder
        { symbol := "AAPL", side := OrderSide.sell, sizing := Sizing.qty 5,
          timeInForce := "day" } = Except.error "market closed"
    ∧ Event.submitOrder
        { symbol := "AAPL", side := OrderSide.sell, sizing := Sizing.qty 5,
          timeInForce := "day" } ∈ (decide_and_trade envSellReject cfgOne "AAPL" lastSellRow).2
    ∧ (decide_and_trade envSellReject cfgOne "AAPL" lastSellRow).1 =
        Except.ok (TradeResult.nothing_to_sell "AAPL")
    ∧ (TradeResult.nothing_to_sell "AAPL").actionOf ≠ "error" := by
  decide

/-- C3 (counterexample): the unprotected equity read of line 203 raises past
the trigger boundary when the account endpoint is down, so the invocation does
NOT always return status 200 with per-symbol records. -/
theorem C3_counterexample :
    (lambda_handler envAccountDown cfgOne).1 = Except.error "account service down" := by
  decide

/-- C3 (amended): provided the pre-loop account-equity read and the
portfolio-equity metric publish succeed, the invocation returns status 200
with exactly one record per input symbol, whatever the other external calls
do; per-symbol failures become that symbol's error record. -/
theorem C3_status_200 (env : Env) (cfg : Config) (q : ℚ)
    (hacct : env.getAccount = Except.ok q)
    (hpub : env.putMetricData "Equity" q [("Symbol", "Portfolio")] = Except.ok ()) :
    (lambda_handler env cfg).1 =
      Except.ok { statusCode := 200, body := cfg.symbols.map (slotResult env cfg) }
    ∧ (cfg.symbols.map (slotResult env cfg)).length = cfg.symbols.length := by
  have hp := processSymbols_fst env cfg cfg.symbols
  have h1 : ((env.getAccount, [Event.getAccount]) : Res ℚ).1 = Except.ok q := hacct
  have h2 : (publish_metric env "Equity" q "Portfolio").1 = Except.ok () := by
    simpa [publish_metric] using hpub
  refine ⟨?_, by simp⟩
  unfold lambda_handler get_portfolio_equity callGetAccount
  rw [rBind_ok_of _ h1]
  dsimp only
  rw [rBind_ok_of _ h2]
  dsimp only
  rw [rBind_ok_of _ hp]
  dsimp only [rPure]

/-- Witness for C3 (amended) at a concrete all-success environment. -/
theorem C3_status_200_witness :
    envGood.getAccount = Except.ok 100000
    ∧ envGood.putMetricData "Equity" 100000 [("Symbol", "Portfolio")] = Except.ok ()
    ∧ (lambda_handler envGood cfgOne).1 =
        Except.ok { statusCode := 200, body := cfgOne.symbols.map (slotResult envGood cfgOne) } :=
  ⟨rfl, rfl, (C3_status_200 envGood cfgOne 100000 rfl rfl).1⟩

/-- C5 (counterexample): for an empty fetched series (fewer than 15 closes),
the evaluation returns `no_data`, not `insufficient_data` as the claim
states. -/
theorem C5_counterexample :
    (evaluate_and_trade envEmptyBars cfgOne "MSFT").1 =
      Except.ok (TradeResult.no_data "MSFT")
    ∧ TradeResult.no_data "MSFT" ≠ TradeResult.insufficient_data "MSFT" := by
  decide

/-- C6 (counterexample): in a run where a BUY signal fires, account equity is
read twice — once before the loop (line 203) and once inside the BUY branch
(line 120) — so it is not read exactly once. -/
theorem C6_counterexample :
    (lambda_handler envGood cfgOne).2.count Event.getAccount = 2
    ∧ ¬(lambda_handler envGood cfgOne).2.count Event.getAccount = 1 := by
  decide

/-- C4 (counterexample): with all services healthy the run buys; with the SAME
inputs except that the metric sink rejects the RSI metric, the symbol is
recorded as an error and no order is submitted — a metric-publication failure
changes the per-symbol outcome. -/
theorem C4_counterexample :
    (lambda_handler envGood cfgOne).1 =
      Except.ok { statusCode := 200, body := [TradeResult.buy "AAPL" "oid-1" 2000] }
    ∧ Event.submitOrder
        { symbol := "AAPL", side := OrderSide.buy, sizing := Sizing.notional 2000,
          timeInForce := "day" } ∈ (lambda_handler envGood cfgOne).2
    ∧ (lambda_handler envRsiSinkDown cfgOne).1 =
        Except.ok { statusCode := 200, body := [TradeResult.error "AAPL" "metric sink down"] }
    ∧ ((lambda_handler envRsiSinkDown cfgOne).2.countP fun ev =>
        match ev with
        | Event.submitOrder _ => true
        | _ => false) = 0 := by
  decide

/-- C7: the per-symbol loop never raises: it returns one outcome per input
symbol, in input order, and a symbol whose pipeline raises gets the record
`{symbol, action: "error", error: message}` (with the original symbol string)
in its own slot, leaving the other symbols' outcomes untouched. -/
theorem C7_failure_isolation (env : Env) (cfg : Config) (syms : List String) :
    (processSymbols env cfg syms).1 = Except.ok (syms.map (slotResult env cfg))
    ∧ (syms.map (slotResult env cfg)).length = syms.length
    ∧ ∀ s e, (evaluate_and_trade env cfg (pyUpper (pyStrip s))).1 = Except.error e →
        slotResult env cfg s = TradeResult.error s e := by
  refine ⟨processSymbols_fst env cfg syms, by simp, ?_⟩
  intro s e h
  simp [slotResult, h]

/-- Witness for C7: three symbols where the second one's fetch raises; the
result has length 3, slot 2 is the error record, slots 1 and 3 are normal. -/
theorem C7_failure_isolation_witness :
    (processSymbols envBDown cfg3 ["A", "B", "C"]).1 =
      Except.ok (["A", "B", "C"].map (slotResult envBDown cfg3))
    ∧ slotResult envBDown cfg3 "B" = TradeResult.error "B" "feed down"
    ∧ ["A", "B", "C"].map (slotResult envBDown cfg3) =
        [TradeResult.no_data "A", TradeResult.error "B" "feed down",
         TradeResult.no_data "C"] :=
  ⟨(C7_failure_isolation envBDown cfg3 ["A", "B", "C"]).1,
   (C7_failure_isolation envBDown cfg3 ["A", "B", "C"]).2.2 "B" "feed down" (by decide),
   by decide⟩

/-- C10: a successful per-symbol record carries the normalized
(stripped + uppercased) symbol, while the error record built by the
orchestrator's `except` carries the original symbol string. -/
theorem C10_symbol_normalization (env : Env) (cfg : Config) (s : String) :
    (∀ r, (evaluate_and_trade env cfg (pyUpper (pyStrip s))).1 = Except.ok r →
        (processSymbols env cfg [s]).1 = Except.ok [r]
        ∧ r.symbolOf = pyUpper (pyStrip s))
    ∧ ∀ e, (evaluate_and_trade env cfg (pyUpper (pyStrip s))).1 = Except.error e →
        (processSymbols env cfg [s]).1 = Except.ok [TradeResult.error s e]
        ∧ (TradeResult.error s e).symbolOf = s := by
  constructor
  · intro r h
    refine ⟨?_, evaluate_and_trade_symbolOf env cfg _ r h⟩
    rw [processSymbols_fst env cfg [s]]
    simp [slotResult, h]
  · intro e h
    refine ⟨?_, rfl⟩
    rw [processSymbols_fst env cfg [s]]
    simp [slotResult, h]

/-- Witness for C10: for the configured symbol " aapl " whose pipeline raises,
the error record carries " aapl ", which differs from the normalized "AAPL"
that a non-error record would carry. -/
theorem C10_symbol_normalization_witness :
    (evaluate_and_trade envFeedDown cfgOne (pyUpper (pyStrip " aapl "))).1 =
      Except.error "feed down"
    ∧ (processSymbols envFeedDown cfgOne [" aapl "]).1 =
        Except.ok [TradeResult.error " aapl " "feed down"]
    ∧ (TradeResult.error " aapl " "feed down").symbolOf = " aapl "
    ∧ pyUpper (pyStrip " aapl ") = "AAPL"
    ∧ (" aapl " : String) ≠ "AAPL" :=
  ⟨by decide,
   ((C10_symbol_normalization envFeedDown cfgOne " aapl ").2 "feed down" (by decide)).1,
   ((C10_symbol_normalization envFeedDown cfgOne " aapl ").2 "feed down" (by decide)).2,
   by decide, by decide⟩

/-- C5 (amended): a NONEMPTY fetched series with fewer than 15 closes leaves
no fully-defined indicator row, so the evaluation returns
`insufficient_data` and submits no order; an empty series instead returns
`no_data` (see the counterexample), also submitting no order. -/
theorem C5_short_series (env : Env) (cfg : Config) (symbol : String) (closes : List ℚ)
    (hfetch : env.getBars symbol cfg.minutesHistory = Except.ok closes)
    (hne : closes ≠ [])
    (hshort : closes.length < 15)
    (hmin : 1 ≤ cfg.minutesHistory) :
    (evaluate_and_trade env cfg symbol).1 = Except.ok (TradeResult.insufficient_data symbol)
    ∧ ∀ r, Event.submitOrder r ∉ (evaluate_and_trade env cfg symbol).2 := by
  set res := if cfg.minutesHistory < closes.length then
      closes.drop (closes.length - cfg.minutesHistory) else closes with hres
  have hlen : res.length ≤ 14 := by
    rw [hres]
    split_ifs with hc
    · rw [List.length_drop]; omega
    · omega
  have hne2 : res ≠ [] := by
    rw [hres]
    split_ifs with hc
    · have hl2 : (closes.drop (closes.length - cfg.minutesHistory)).length =
          cfg.minutesHistory := by
        rw [List.length_drop]; omega
      intro hnil
      rw [hnil] at hl2
      simp at hl2
      omega
    · exact hne
  have h1 : ((env.getBars symbol cfg.minutesHistory,
      [Event.getBars symbol cfg.minutesHistory]) : Res (List ℚ)).1 = Except.ok closes := hfetch
  have hf : fetch_minute_bars env symbol cfg.minutesHistory =
      (Except.ok res, [Event.getBars symbol cfg.minutesHistory]) := by
    unfold fetch_minute_bars callGetBars
    rw [rBind_ok_of _ h1]
    simp [rPure, ← hres]
  have heval : evaluate_and_trade env cfg symbol =
      (Except.ok (TradeResult.insufficient_data symbol),
       [Event.getBars symbol cfg.minutesHistory]) := by
    unfold evaluate_and_trade
    rw [hf, rBind_mk_ok]
    rw [if_neg (by simpa using hne2), dropna_of_short res hlen]
    simp [rPure]
  rw [heval]
  refine ⟨rfl, ?_⟩
  intro r
  simp

/-- Witness for C5 (amended): a three-close series yields
`insufficient_data`. -/
theorem C5_short_series_witness :
    envShortBars.getBars "AAPL" cfgOne.minutesHistory = Except.ok [10, 11, 12]
    ∧ ([10, 11, 12] : List ℚ) ≠ []
    ∧ ([10, 11, 12] : List ℚ).length < 15
    ∧ 1 ≤ cfgOne.minutesHistory
    ∧ (evaluate_and_trade envShortBars cfgOne "AAPL").1 =
        Except.ok (TradeResult.insufficient_data "AAPL") :=
  ⟨rfl, by decide, by decide, by decide,
   (C5_short_series envShortBars cfgOne "AAPL" [10, 11, 12] rfl (by decide) (by decide)
     (by decide)).1⟩

/-- C8: when the latest row is in the SELL quadrant and no open position
exists (`get_position` raises), the result is the terminal non-error record
`nothing_to_sell` and no order is submitted. -/
theorem C8_nothing_to_sell (env : Env) (cfg : Config) (symbol : String) (last : DefinedRow)
    (e : String)
    (hmet : ∀ n v d, env.putMetricData n v d = Except.ok ())
    (hsell : 70 < last.rsi14 ∧ last.ema9 < last.close)
    (hpos : env.getPosition symbol = Except.error e) :
    (decide_and_trade env cfg symbol last).1 = Except.ok (TradeResult.nothing_to_sell symbol)
    ∧ ∀ r, Event.submitOrder r ∉ (decide_and_trade env cfg symbol last).2 := by
  have hnb : ¬(last.rsi14 < 30 ∧ last.close < last.ema9) := by
    rintro ⟨h1, -⟩
    have h2 := hsell.1
    linarith
  refine ⟨?_, fun r => ?_⟩ <;>
    simp [decide_and_trade, publish_metric, callGetPosition, hmet, hnb, hsell, hpos, rPure]

/-- Witness for C8 at a concrete environment with no open position. -/
theorem C8_nothing_to_sell_witness :
    (∀ n v d, envGood.putMetricData n v d = Except.ok ())
    ∧ (70 < lastSellRow.rsi14 ∧ lastSellRow.ema9 < lastSellRow.close)
    ∧ envGood.getPosition "AAPL" = Except.error "position does not exist"
    ∧ (decide_and_trade envGood cfgOne "AAPL" lastSellRow).1 =
        Except.ok (TradeResult.nothing_to_sell "AAPL") :=
  ⟨fun _ _ _ => rfl, by decide, rfl,
   (C8_nothing_to_sell envGood cfgOne "AAPL" lastSellRow "position does not exist"
     (fun _ _ _ => rfl) (by decide) rfl).1⟩

/-- C4 (amended): a metric-sink failure DOES fail the pipeline: if publishing
the RSI metric raises, the symbol's whole pipeline raises with that error (the
orchestrator then records the symbol as an error) and no order is
submitted. -/
theorem C4_metric_failure_fails_pipeline (env : Env) (cfg : Config) (symbol : String)
    (last : DefinedRow) (msg : String)
    (hsym : ¬symbol = "")
    (hfail : env.putMetricData "RSI" last.rsi14 [("Symbol", symbol)] = Except.error msg) :
    (decide_and_trade env cfg symbol last).1 = Except.error msg
    ∧ ∀ r, Event.submitOrder r ∉ (decide_and_trade env cfg symbol last).2 := by
  have h1 : (publish_metric env "RSI" last.rsi14 symbol).1 = Except.error msg := by
    simp [publish_metric, hsym, hfail]
  constructor
  · unfold decide_and_trade
    rw [rBind_error_of _ h1]
  · intro r
    unfold decide_and_trade
    rw [rBind_error_of _ h1]
    simp [publish_metric, hsym]

/-- Witness for C4 (amended) at the metric-sink-down environment. -/
theorem C4_metric_failure_witness :
    ¬("AAPL" : String) = ""
    ∧ envRsiSinkDown.putMetricData "RSI" lastBuyRow.rsi14 [("Symbol", "AAPL")] =
        Except.error "metric sink down"
    ∧ (decide_and_trade envRsiSinkDown cfgOne "AAPL" lastBuyRow).1 =
        Except.error "metric sink down" :=
  ⟨by decide, by decide,
   (C4_metric_failure_fails_pipeline envRsiSinkDown cfgOne "AAPL" lastBuyRow
     "metric sink down" (by decide) (by decide)).1⟩

/-- C1: under an environment where every external call succeeds, the decision
on the latest fully-defined row (close `c`, momentum `m`, trend average `e`)
is BUY exactly when `m < 30` and `c < e`, SELL exactly when `m > 70` and
`c > e`, and NO_SIGNAL otherwise; the boundary inputs `m = 30`, `m = 70` and
`c = e` all yield NO_SIGNAL (the comparisons are strict). -/
theorem C1_decision_rule (env : Env) (cfg : Config) (symbol : String) (last : DefinedRow)
    (q : ℚ) (p : PositionInfo) (oid : String)
    (hmet : ∀ n v d, env.putMetricData n v d = Except.ok ())
    (hacct : env.getAccount = Except.ok q)
    (hpos : env.getPosition symbol = Except.ok p)
    (hord : ∀ r, env.submitOrder r = Except.ok oid) :
    ((decide_and_trade env cfg symbol last).1 =
        Except.ok (TradeResult.buy symbol oid (q * cfg.riskPct))
      ↔ last.rsi14 < 30 ∧ last.close < last.ema9)
    ∧ ((decide_and_trade env cfg symbol last).1 =
        Except.ok (TradeResult.sell symbol oid p.qty)
      ↔ 70 < last.rsi14 ∧ last.ema9 < last.close)
    ∧ ((decide_and_trade env cfg symbol last).1 =
        Except.ok (TradeResult.no_signal symbol last.rsi14 last.close last.ema9)
      ↔ ¬(last.rsi14 < 30 ∧ last.close < last.ema9)
        ∧ ¬(70 < last.rsi14 ∧ last.ema9 < last.close))
    ∧ (last.rsi14 = 30 → (decide_and_trade env cfg symbol last).1 =
        Except.ok (TradeResult.no_signal symbol last.rsi14 last.close last.ema9))
    ∧ (last.rsi14 = 70 → (decide_and_trade env cfg symbol last).1 =
        Except.ok (TradeResult.no_signal symbol last.rsi14 last.close last.ema9))
    ∧ (last.close = last.ema9 → (decide_and_trade env cfg symbol last).1 =
        Except.ok (TradeResult.no_signal symbol last.rsi14 last.close last.ema9)) := by
  by_cases hb : last.rsi14 < 30 ∧ last.close < last.ema9
  · have hs : ¬(70 < last.rsi14 ∧ last.ema9 < last.close) := by
      rintro ⟨h70, -⟩
      have h30 := hb.1
      linarith
    have heval : (decide_and_trade env cfg symbol last).1 =
        Except.ok (TradeResult.buy symbol oid (q * cfg.riskPct)) := by
      simp [decide_and_trade, publish_metric, get_portfolio_equity, callGetAccount,
        submit_market_notional_order, callSubmitOrder, hmet, hacct, hord, hb, rPure]
    rw [heval]
    refine ⟨by simp [hb], by simp [hs], by simp [hb], ?_, ?_, ?_⟩
    · intro h
      exfalso
      have h30 := hb.1
      linarith
    · intro h
      exfalso
      have h30 := hb.1
      linarith
    · intro h
      exfalso
      have hce := hb.2
      linarith
  · by_cases hs : 70 < last.rsi14 ∧ last.ema9 < last.close
    · have heval : (decide_and_trade env cfg symbol last).1 =
          Except.ok (TradeResult.sell symbol oid p.qty) := by
        simp [decide_and_trade, publish_metric, callGetPosition, callSubmitOrder,
          hmet, hpos, hord, hb, hs, rPure]
      rw [heval]
      refine ⟨by simp [hb], by simp [hs], by simp [hs], ?_, ?_, ?_⟩
      · intro h
        exfalso
        have h70 := hs.1
        linarith
      · intro h
        exfalso
        have h70 := hs.1
        linarith
      · intro h
        exfalso
        have hce := hs.2
        linarith
    · have heval : (decide_and_trade env cfg symbol last).1 =
          Except.ok (TradeResult.no_signal symbol last.rsi14 last.close last.ema9) := by
        simp [decide_and_trade, publish_metric, hmet, hb, hs, rPure]
      rw [heval]
      exact ⟨by simp [hb], by simp [hs], by simp [hb, hs],
        fun h => rfl, fun h => rfl, fun h => rfl⟩

/-- Witness for C1 at a concrete all-success environment and a BUY-quadrant
row. -/
theorem C1_decision_rule_witness :
    (∀ n v d, envAllOk.putMetricData n v d = Except.ok ())
    ∧ envAllOk.getAccount = Except.ok 100000
    ∧ envAllOk.getPosition "AAPL" = Except.ok { qty := 5, unrealized_pl := 2 }
    ∧ (∀ r, envAllOk.submitOrder r = Except.ok "oid-1")
    ∧ ((decide_and_trade envAllOk cfgOne "AAPL" lastBuyRow).1 =
        Except.ok (TradeResult.buy "AAPL" "oid-1" (100000 * cfgOne.riskPct))
      ↔ lastBuyRow.rsi14 < 30 ∧ lastBuyRow.close < lastBuyRow.ema9) :=
  ⟨fun _ _ _ => rfl, rfl, rfl, fun _ => rfl,
   (C1_decision_rule envAllOk cfgOne "AAPL" lastBuyRow 100000
     { qty := 5, unrealized_pl := 2 } "oid-1" (fun _ _ _ => rfl) rfl rfl
     (fun _ => rfl)).1⟩

/-- C6 (amended): the invocation's first external call is the account read
(done before per-symbol work), but equity is ALSO re-read inside a symbol's
pipeline exactly when the BUY condition holds (provided the three indicator
metric publishes succeed). -/
theorem C6_equity_reads (env : Env) (cfg : Config) (symbol : String) (last : DefinedRow)
    (hmet : ∀ n v d, env.putMetricData n v d = Except.ok ()) :
    (lambda_handler env cfg).2.head? = some Event.getAccount
    ∧ (Event.getAccount ∈ (decide_and_trade env cfg symbol last).2
        ↔ last.rsi14 < 30 ∧ last.close < last.ema9) := by
  constructor
  · unfold lambda_handler get_portfolio_equity callGetAccount
    rcases ha : env.getAccount with e | v
    · simp
    · simp
  · by_cases hb : last.rsi14 < 30 ∧ last.close < last.ema9
    · rcases ha : env.getAccount with e | v
      · simp [decide_and_trade, publish_metric, get_portfolio_equity, callGetAccount,
          hmet, hb, ha, rPure]
      · rcases ho : env.submitOrder
            { symbol := symbol, side := OrderSide.buy,
              sizing := Sizing.notional (v * cfg.riskPct), timeInForce := "day" }
          with e2 | oid
        · simp [decide_and_trade, publish_metric, get_portfolio_equity, callGetAccount,
            submit_market_notional_order, callSubmitOrder, hmet, hb, ha, ho, rPure]
        · simp [decide_and_trade, publish_metric, get_portfolio_equity, callGetAccount,
            submit_market_notional_order, callSubmitOrder, hmet, hb, ha, ho, rPure]
    · by_cases hsl : 70 < last.rsi14 ∧ last.ema9 < last.close
      · rcases hp : env.getPosition symbol with e | p
        · simp [decide_and_trade, publish_metric, callGetPosition, hmet, hb, hsl, hp,
            rPure]
        · rcases ho : env.submitOrder
              { symbol := symbol, side := OrderSide.sell, sizing := Sizing.qty p.qty,
                timeInForce := "day" }
            with e2 | oid
          · simp [decide_and_trade, publish_metric, callGetPosition, callSubmitOrder,
              hmet, hb, hsl, hp, ho, rPure]
          · simp [decide_and_trade, publish_metric, callGetPosition, callSubmitOrder,
              hmet, hb, hsl, hp, ho, rPure]
      · simp [decide_and_trade, publish_metric, hmet, hb, hsl, rPure]

/-- Witness for C6 (amended) at a concrete environment and BUY-quadrant
row. -/
theorem C6_equity_reads_witness :
    (∀ n v d, envGood.putMetricData n v d = Except.ok ())
    ∧ (lambda_handler envGood cfgOne).2.head? = some Event.getAccount
    ∧ (Event.getAccount ∈ (decide_and_trade envGood cfgOne "AAPL" lastBuyRow).2
        ↔ lastBuyRow.rsi14 < 30 ∧ lastBuyRow.close < lastBuyRow.ema9) :=
  ⟨fun _ _ _ => rfl,
   (C6_equity_reads envGood cfgOne "AAPL" lastBuyRow (fun _ _ _ => rfl)).1,
   (C6_equity_reads envGood cfgOne "AAPL" lastBuyRow (fun _ _ _ => rfl)).2⟩

/-- C9: for every close series of length ≥ 20, the computed EMA(9) and
momentum index agree EXACTLY (hence within tolerance 1/1000000) with the
spec's recurrences at every position, and the momentum index is 100 when the
average loss is exactly 0 with nonzero average gain. -/
theorem C9_indicator_refinement (closes : List ℚ) (_hlen : 20 ≤ closes.length) :
    (∀ t, ema9At closes t = specTrendAvgAt closes t)
    ∧ (∀ t, rsi14At closes t = specMomentumAt closes t)
    ∧ (∀ t r s, rsi14At closes t = some r → specMomentumAt closes t = some s →
        |r - s| ≤ 1 / 1000000)
    ∧ (∀ t x y, ema9At closes t = some x → specTrendAvgAt closes t = some y →
        |x - y| ≤ 1 / 1000000)
    ∧ (∀ t g, avgLossAt closes t = some 0 → avgGainAt closes t = some g → g ≠ 0 →
        rsi14At closes t = some 100) := by
  refine ⟨ema9At_eq_specTrendAvgAt closes, fun t => rsi14At_eq_specMomentumAt closes t,
    ?_, ?_, ?_⟩
  · intro t r s h1 h2
    rw [rsi14At_eq_specMomentumAt closes t] at h1
    rw [h1] at h2
    obtain rfl : r = s := by simpa using h2
    rw [sub_self, abs_zero]
    norm_num
  · intro t x y h1 h2
    rw [ema9At_eq_specTrendAvgAt closes t] at h1
    rw [h1] at h2
    obtain rfl : x = y := by simpa using h2
    rw [sub_self, abs_zero]
    norm_num
  · intro t g hl hg hgz
    simp only [rsi14At, hg, hl]
    rw [if_neg (by simpa using hgz)]
    rw [add_zero, mul_div_assoc, div_self hgz, mul_one]

/-- Witness for C9 at the 20-close BUY series. -/
theorem C9_indicator_refinement_witness :
    20 ≤ buySeries.length
    ∧ (∀ t, rsi14At buySeries t = specMomentumAt buySeries t)
    ∧ (∀ t, ema9At buySeries t = specTrendAvgAt buySeries t) :=
  ⟨by decide, (C9_indicator_refinement buySeries (by decide)).2.1,
   (C9_indicator_refinement buySeries (by decide)).1⟩

end TradingBot
